import Mathlib

/-!
Shallow embedding of the Go package `aerospike` from
bsv-blockchain/testcontainers-aerospike-go (file `aerospike.go`).

The package configures and launches an Aerospike test container through the
external testcontainers framework.  Go's mutable `*GenericContainerRequest`
is embedded as explicit state passing: an option is a function from a
request to `Except GoError GenericContainerRequest`.  Go `error` values are
modelled as strings; a returned `nil` error is the `.ok` branch.  The
external orchestration framework (container creation, port mapping) is a
parameter of the functions that call into it, so that theorems quantify
over its behaviour.
-/

/-- Go `error` values, modelled by their message. -/
abbrev GoError := String

/-- The constant `aerospikeServicePort = "3000/tcp"` from `aerospike.go`. -/
def aerospikeServicePort : String := "3000/tcp"

/-- The constant `communityAerospikeImage` from `aerospike.go`. -/
def communityAerospikeImage : String := "aerospike/aerospike-server:8.0"

/-- The constant `enterpriseAerospikeImage` from `aerospike.go`. -/
def enterpriseAerospikeImage : String := "aerospike/aerospike-server-enterprise:8.0"

/-- Go `map[string]string`, embedded as an association list with unique keys
kept by construction; lookup returns the first (hence only) binding. -/
abbrev EnvMap := List (String × String)

/-- Map lookup `m[k]`: `some v` when the key is bound, `none` otherwise. -/
def EnvMap.get (m : EnvMap) (k : String) : Option String :=
  match m with
  | [] => none
  | (k2, v) :: rest => if k2 = k then some v else EnvMap.get rest k

/-- Map assignment `m[k] = v`: overwrites the binding of `k` when present,
otherwise adds one. -/
def EnvMap.set (m : EnvMap) (k v : String) : EnvMap :=
  match m with
  | [] => [(k, v)]
  | (k2, v2) :: rest =>
      if k2 = k then (k, v) :: rest else (k2, v2) :: EnvMap.set rest k v

/-- A mapped port as reported by the framework (Docker's `nat.Port`). -/
structure Port where
  value : Int
  deriving DecidableEq, Repr

/-- `nat.Port.Int()`: the numeric value of the port. -/
def Port.Int (p : Port) : Int := p.value

/-- A container lifecycle hook (`testcontainers.ContainerHook`), embedded by
its observable effect: the command it passes to the container's `Exec`. -/
structure ContainerHook where
  execCmd : List String
  deriving DecidableEq, Repr

/-- `testcontainers.ContainerLifecycleHooks`: here only the post-start hooks
are ever populated. -/
structure ContainerLifecycleHooks where
  PostStarts : List ContainerHook
  deriving DecidableEq, Repr

/-- Modelled from the spec: the repository's `newAerospikeWaitStrategy`
(referenced at `aerospike.go:27` but defined in a file not among the given
sources) builds "a readiness condition that polls the service until it
accepts connections". -/
inductive WaitStrategy where
  | readinessPoll (service : String)
  deriving DecidableEq, Repr

/-- The readiness strategy installed by `RunContainer`. -/
def newAerospikeWaitStrategy : WaitStrategy := .readinessPoll aerospikeServicePort

/-- `testcontainers.ContainerRequest`, restricted to the fields this package
reads or writes.  `Env` is `Option` because a Go map field may be `nil`. -/
structure ContainerRequest where
  Image : String
  ExposedPorts : List String
  Env : Option EnvMap
  WaitingFor : Option WaitStrategy
  LifecycleHooks : List ContainerLifecycleHooks
  deriving DecidableEq, Repr

/-- `testcontainers.GenericContainerRequest`: embeds a `ContainerRequest`
plus the `Started` flag. -/
structure GenericContainerRequest where
  toContainerRequest : ContainerRequest
  Started : Bool
  deriving DecidableEq, Repr

/-- The zero value of `testcontainers.GenericContainerRequest` used by the
package's unit tests. -/
def GenericContainerRequest.zero : GenericContainerRequest :=
  { toContainerRequest :=
      { Image := ""
        ExposedPorts := []
        Env := none
        WaitingFor := none
        LifecycleHooks := [] }
    Started := false }

/-- Read an environment entry of a request (`req.Env[k]`); a `nil` map has
no entries. -/
def GenericContainerRequest.envGet (req : GenericContainerRequest) (k : String) :
    Option String :=
  match req.toContainerRequest.Env with
  | none => none
  | some m => EnvMap.get m k

/-- `testcontainers.ContainerCustomizer` / `CustomizeRequestOption`: a
customizer mutates the request or reports an error. -/
abbrev ContainerCustomizer :=
  GenericContainerRequest → Except GoError GenericContainerRequest

/-- Same underlying type in the framework; this package's options all have
this shape. -/
abbrev CustomizeRequestOption := ContainerCustomizer

/-- `opt.Customize(req)` where the pointer target `req` may be `nil`
(`none`).  On a `nil` target the Go closures dereference a nil pointer and
the application cannot produce a configured request; that failure is the
configuration error of the model. -/
def Customize (opt : ContainerCustomizer) :
    Option GenericContainerRequest → Except GoError GenericContainerRequest
  | none => .error "nil configuration target"
  | some req => opt req

/-- Model of the external framework function `testcontainers.WithImage`:
it overwrites the request's image field and returns no error (behaviour
asserted by this repository's unit test `TestWithImageOption`). -/
def testcontainersWithImage (image : String) : CustomizeRequestOption :=
  fun req =>
    .ok { req with toContainerRequest :=
            { req.toContainerRequest with Image := image } }

/-- `WithImage` (`aerospike.go:59-61`): delegates to the framework's
image customizer. -/
def WithImage (image : String) : CustomizeRequestOption :=
  testcontainersWithImage image

/-- `WithEnterpriseEdition` (`aerospike.go:64-66`). -/
def WithEnterpriseEdition : CustomizeRequestOption :=
  WithImage enterpriseAerospikeImage

/-- `WithNamespace` (`aerospike.go:70-79`): ensures the env map exists and
assigns the `NAMESPACE` entry. -/
def WithNamespace (ns : String) : CustomizeRequestOption :=
  fun req =>
    let env : EnvMap :=
      match req.toContainerRequest.Env with
      | none => []
      | some m => m
    .ok { req with toContainerRequest :=
            { req.toContainerRequest with
                Env := some (EnvMap.set env "NAMESPACE" ns) } }

/-- `WithLogLevel` (`aerospike.go:82-91`): ensures the env map exists and
assigns the `AEROSPIKE_LOG_LEVEL` entry. -/
def WithLogLevel (logLevel : String) : CustomizeRequestOption :=
  fun req =>
    let env : EnvMap :=
      match req.toContainerRequest.Env with
      | none => []
      | some m => m
    .ok { req with toContainerRequest :=
            { req.toContainerRequest with
                Env := some (EnvMap.set env "AEROSPIKE_LOG_LEVEL" logLevel) } }

/-- The `asinfo` command built by `WithTTLSupport`'s hook
(`aerospike.go:104`). -/
def ttlCmd (ns : String) : List String :=
  ["asinfo", "-v", "set-config:context=namespace;id=" ++ ns ++ ";nsup-period=10"]

/-- `WithTTLSupport` (`aerospike.go:96-112`): defaults an empty namespace to
`"test"`, then appends one lifecycle-hooks record holding a single
post-start hook that runs the `asinfo` configuration command. -/
def WithTTLSupport (ns0 : String) : CustomizeRequestOption :=
  let ns := if ns0 = "" then "test" else ns0
  fun req =>
    .ok { req with toContainerRequest :=
            { req.toContainerRequest with
                LifecycleHooks :=
                  req.toContainerRequest.LifecycleHooks ++
                    [{ PostStarts := [{ execCmd := ttlCmd ns }] }] } }

/-- The handle returned by the external framework
(`testcontainers.Container`), embedded by the one operation this package
uses on it: `MappedPort`. -/
structure FrameworkContainer where
  MappedPort : String → Except GoError Port

/-- `Container` (`aerospike.go:18-20`): wraps the framework handle. -/
structure Container where
  toFrameworkContainer : FrameworkContainer

/-- The two single-level error wraps `RunContainer` can return
(`fmt.Errorf("failed to apply option: %w", err)` and
`fmt.Errorf("failed to start Aerospike: %w", err)`). -/
inductive RunError where
  | failedToApplyOption (e : GoError)
  | failedToStartAerospike (e : GoError)
  deriving DecidableEq, Repr

/-- The `containerRequest` literal built at `aerospike.go:24-28`. -/
def defaultContainerRequest : ContainerRequest :=
  { Image := communityAerospikeImage
    ExposedPorts := ["3000/tcp"]
    Env := none
    WaitingFor := some newAerospikeWaitStrategy
    LifecycleHooks := [] }

/-- The `genericContainerRequest` literal built at `aerospike.go:30-33`. -/
def defaultGenericContainerRequest : GenericContainerRequest :=
  { toContainerRequest := defaultContainerRequest
    Started := true }

/-- The option loop of `RunContainer` (`aerospike.go:35-39`): apply each
customizer in order, stopping at the first error. -/
def applyOpts :
    List ContainerCustomizer → GenericContainerRequest →
      Except GoError GenericContainerRequest
  | [], req => .ok req
  | opt :: rest, req =>
      match opt req with
      | .error e => .error e
      | .ok req2 => applyOpts rest req2

/-- `RunContainer` (`aerospike.go:23-47`).  `genericContainer` is the
external framework's creation+start call, passed as a parameter. -/
def RunContainer
    (genericContainer : GenericContainerRequest → Except GoError FrameworkContainer)
    (opts : List ContainerCustomizer) : Except RunError Container :=
  match applyOpts opts defaultGenericContainerRequest with
  | .error e => .error (.failedToApplyOption e)
  | .ok req =>
      match genericContainer req with
      | .error e => .error (.failedToStartAerospike e)
      | .ok c => .ok { toFrameworkContainer := c }

/-- `Container.ServicePort` (`aerospike.go:50-56`), returning Go's
`(int, error)` pair. -/
def Container.ServicePort (c : Container) : Int × Option GoError :=
  match c.toFrameworkContainer.MappedPort aerospikeServicePort with
  | .error e => (0, some e)
  | .ok port => (port.Int, none)

/-! ## Helper lemmas about the environment map -/

/-- After `m[k] = v`, looking up `k` yields `v`. -/
theorem EnvMap.get_set_same (m : EnvMap) (k v : String) :
    EnvMap.get (EnvMap.set m k v) k = some v := by
  induction m with
  | nil => simp [EnvMap.set, EnvMap.get]
  | cons p rest ih =>
      obtain ⟨k2, v2⟩ := p
      by_cases h : k2 = k
      · simp [EnvMap.set, EnvMap.get, h]
      · simp [EnvMap.set, EnvMap.get, h, ih]

/-- After `m[k] = v`, looking up any other key is unchanged. -/
theorem EnvMap.get_set_other (m : EnvMap) (k v k2 : String) (h : k2 ≠ k) :
    EnvMap.get (EnvMap.set m k v) k2 = EnvMap.get m k2 := by
  induction m with
  | nil => simp [EnvMap.set, EnvMap.get, Ne.symm h]
  | cons p rest ih =>
      obtain ⟨a, b⟩ := p
      by_cases ha : a = k
      · subst ha
        simp [EnvMap.set, EnvMap.get, Ne.symm h]
      · simp [EnvMap.set, EnvMap.get, ha, ih]

/-- `applyOpts` distributes over list append: the options of the second
list are applied after, and only on success of, the first list. -/
theorem applyOpts_append (xs ys : List ContainerCustomizer)
    (r : GenericContainerRequest) :
    applyOpts (xs ++ ys) r =
      match applyOpts xs r with
      | .error e => .error e
      | .ok r2 => applyOpts ys r2 := by
  induction xs generalizing r with
  | nil => simp [applyOpts]
  | cons opt rest ih =>
      cases h : opt r with
      | error e => simp [applyOpts, h]
      | ok r2 => simp [applyOpts, h, ih]

/-! ## Claims -/

/-- Claim C1: applying any of the module's option functions (namespace
selector, log-level selector, image selector, enterprise-edition selector,
time-to-live enabler) to a nil/absent configuration target signals a
configuration error, and on every non-nil configuration target the
application returns no error. -/
theorem options_nil_target_error_nonnil_ok :
    (∀ s : String,
      Customize (WithNamespace s) none = .error "nil configuration target")
    ∧ (∀ s : String,
      Customize (WithLogLevel s) none = .error "nil configuration target")
    ∧ (∀ v : String,
      Customize (WithImage v) none = .error "nil configuration target")
    ∧ Customize WithEnterpriseEdition none = .error "nil configuration target"
    ∧ (∀ s : String,
      Customize (WithTTLSupport s) none = .error "nil configuration target")
    ∧ (∀ s req, ∃ r2, Customize (WithNamespace s) (some req) = .ok r2)
    ∧ (∀ s req, ∃ r2, Customize (WithLogLevel s) (some req) = .ok r2)
    ∧ (∀ v req, ∃ r2, Customize (WithImage v) (some req) = .ok r2)
    ∧ (∀ req, ∃ r2, Customize WithEnterpriseEdition (some req) = .ok r2)
    ∧ (∀ s req, ∃ r2, Customize (WithTTLSupport s) (some req) = .ok r2) :=
  ⟨fun _ => rfl, fun _ => rfl, fun _ => rfl, rfl, fun _ => rfl,
    fun _ _ => ⟨_, rfl⟩, fun _ _ => ⟨_, rfl⟩, fun _ _ => ⟨_, rfl⟩,
    fun _ => ⟨_, rfl⟩, fun _ _ => ⟨_, rfl⟩⟩

/-- Claim C2: for every string `s`, applying `WithNamespace s` to any
configuration succeeds, and reading the `NAMESPACE` environment entry of
the result yields exactly `s`, with no normalization. -/
theorem withNamespace_env_roundtrip (s : String) (req : GenericContainerRequest) :
    ∃ r2, WithNamespace s req = .ok r2 ∧ r2.envGet "NAMESPACE" = some s := by
  refine ⟨_, rfl, ?_⟩
  simp [WithNamespace, GenericContainerRequest.envGet, EnvMap.get_set_same]

/-- Claim C9: applying `WithImage v` to a configuration sets the image
field to exactly `v` (and changes nothing else, the update being the whole
effect), returning no error. -/
theorem withImage_sets_image (v : String) (req : GenericContainerRequest) :
    WithImage v req =
      .ok { req with toContainerRequest :=
              { req.toContainerRequest with Image := v } } := rfl

/-- Claim C8: `WithEnterpriseEdition` is the image option applied to the
fixed enterprise image literal: the two are the same transformation, and on
every request both produce the same successful result (hence also identical
error behaviour). -/
theorem withEnterpriseEdition_equiv :
    WithEnterpriseEdition = WithImage enterpriseAerospikeImage
    ∧ enterpriseAerospikeImage = "aerospike/aerospike-server-enterprise:8.0"
    ∧ ∀ req, WithEnterpriseEdition req = WithImage enterpriseAerospikeImage req
        ∧ WithEnterpriseEdition req =
            .ok { req with toContainerRequest :=
                    { req.toContainerRequest with
                        Image := "aerospike/aerospike-server-enterprise:8.0" } } :=
  ⟨rfl, rfl, fun _ => ⟨rfl, rfl⟩⟩

/-- Claim C6: `WithTTLSupport ns` succeeds on every request and appends
exactly one lifecycle-hooks record holding exactly one post-start hook,
whose action runs
`asinfo -v set-config:context=namespace;id=<ns>;nsup-period=10` in the
container, where `<ns>` is `ns` when non-empty and `"test"` when `ns` is
the empty string. -/
theorem withTTLSupport_registers_hook (ns : String) (req : GenericContainerRequest) :
    WithTTLSupport ns req =
      .ok { req with toContainerRequest :=
              { req.toContainerRequest with
                  LifecycleHooks :=
                    req.toContainerRequest.LifecycleHooks ++
                      [{ PostStarts := [{ execCmd :=
                          ["asinfo", "-v",
                            "set-config:context=namespace;id=" ++
                              (if ns = "" then "test" else ns) ++
                              ";nsup-period=10"] }] }] } } := rfl

/-- Claim C3: applying the same named option twice in sequence leaves the
targeted field or environment entry equal to the value of the later
application (last-write-wins, in call order), and each named option writes
at most its own single environment key. -/
theorem options_last_write_wins (req : GenericContainerRequest)
    (s1 s2 l1 l2 v1 v2 : String) :
    (∃ r2, applyOpts [WithNamespace s1, WithNamespace s2] req = .ok r2
      ∧ r2.envGet "NAMESPACE" = some s2
      ∧ ∀ k, k ≠ "NAMESPACE" → r2.envGet k = req.envGet k)
    ∧ (∃ r2, applyOpts [WithLogLevel l1, WithLogLevel l2] req = .ok r2
      ∧ r2.envGet "AEROSPIKE_LOG_LEVEL" = some l2
      ∧ ∀ k, k ≠ "AEROSPIKE_LOG_LEVEL" → r2.envGet k = req.envGet k)
    ∧ (∃ r2, applyOpts [WithImage v1, WithImage v2] req = .ok r2
      ∧ r2.toContainerRequest.Image = v2) := by
  refine ⟨⟨_, rfl, ?_, ?_⟩, ⟨_, rfl, ?_, ?_⟩, ⟨_, rfl, rfl⟩⟩
  · simp [applyOpts, WithNamespace, GenericContainerRequest.envGet,
      EnvMap.get_set_same]
  · intro k hk
    cases hE : req.toContainerRequest.Env <;>
      simp [applyOpts, WithNamespace, GenericContainerRequest.envGet, hE,
        EnvMap.get_set_other _ _ _ _ hk, EnvMap.get, Ne.symm hk]
  · simp [applyOpts, WithLogLevel, GenericContainerRequest.envGet,
      EnvMap.get_set_same]
  · intro k hk
    cases hE : req.toContainerRequest.Env <;>
      simp [applyOpts, WithLogLevel, GenericContainerRequest.envGet, hE,
        EnvMap.get_set_other _ _ _ _ hk, EnvMap.get, Ne.symm hk]

/-- Witness for C3 at concrete inputs: the second value wins and an
unrelated key is untouched. -/
theorem options_last_write_wins_witness :
    ∃ r2, applyOpts [WithNamespace "first", WithNamespace "second"]
        GenericContainerRequest.zero = .ok r2
      ∧ r2.envGet "NAMESPACE" = some "second"
      ∧ r2.envGet "OTHER" = GenericContainerRequest.zero.envGet "OTHER" := by
  obtain ⟨⟨r2, h1, h2, h3⟩, -, -⟩ :=
    options_last_write_wins GenericContainerRequest.zero
      "first" "second" "a" "b" "c" "d"
  exact ⟨r2, h1, h2, h3 "OTHER" (by decide)⟩

/-- Claim C4: with zero options `RunContainer` builds the default request —
fixed community image `aerospike/aerospike-server:8.0`, exposed-port list
exactly `["3000/tcp"]`, the readiness wait strategy, started flag set — and
hands exactly that request to the framework, wrapping the returned handle;
with options present they are applied strictly in the order given before
delegation. -/
theorem runContainer_default_and_order :
    defaultGenericContainerRequest.toContainerRequest.Image =
      "aerospike/aerospike-server:8.0"
    ∧ defaultGenericContainerRequest.toContainerRequest.ExposedPorts = ["3000/tcp"]
    ∧ defaultGenericContainerRequest.toContainerRequest.WaitingFor =
        some newAerospikeWaitStrategy
    ∧ defaultGenericContainerRequest.Started = true
    ∧ (∀ gc, RunContainer gc [] =
        match gc defaultGenericContainerRequest with
        | .error e => .error (.failedToStartAerospike e)
        | .ok c => .ok { toFrameworkContainer := c })
    ∧ (∀ (xs ys : List ContainerCustomizer) (r : GenericContainerRequest),
        applyOpts (xs ++ ys) r =
          match applyOpts xs r with
          | .error e => .error e
          | .ok r2 => applyOpts ys r2)
    ∧ (∀ gc opts, RunContainer gc opts =
        match applyOpts opts defaultGenericContainerRequest with
        | .error e => .error (.failedToApplyOption e)
        | .ok req =>
            match gc req with
            | .error e => .error (.failedToStartAerospike e)
            | .ok c => .ok { toFrameworkContainer := c }) :=
  ⟨rfl, rfl, rfl, rfl, fun _ => rfl, applyOpts_append, fun _ _ => rfl⟩

/-- Claim C5: when some option application fails, `RunContainer` returns a
single `failed to apply option` wrap of that error, independently of the
framework (so the framework's creation call is never consulted); when the
options succeed and the framework call fails, the result is a single
`failed to start Aerospike` wrap of the framework's error. -/
theorem runContainer_error_paths (opts : List ContainerCustomizer) :
    (∀ e, applyOpts opts defaultGenericContainerRequest = .error e →
      ∀ gc, RunContainer gc opts = .error (.failedToApplyOption e))
    ∧ (∀ req e, applyOpts opts defaultGenericContainerRequest = .ok req →
      ∀ gc, gc req = .error e →
        RunContainer gc opts = .error (.failedToStartAerospike e)) := by
  constructor
  · intro e h gc
    simp [RunContainer, h]
  · intro req e h gc hg
    simp [RunContainer, h, hg]

/-- Witness for C5: a failing option aborts before the framework, and a
failing framework call is wrapped. -/
theorem runContainer_error_paths_witness :
    RunContainer (fun _ => .ok { MappedPort := fun _ => .error "unused" })
        [fun _ => .error "boom"] = .error (.failedToApplyOption "boom")
    ∧ RunContainer (fun _ => .error "daemon down") [] =
        .error (.failedToStartAerospike "daemon down") :=
  ⟨(runContainer_error_paths [fun _ => .error "boom"]).1 "boom" rfl _,
    (runContainer_error_paths []).2 defaultGenericContainerRequest
      "daemon down" rfl _ rfl⟩

/-- Claim C7: `Container.ServicePort` resolves the mapping of the fixed
internal port `3000/tcp`: it returns the framework's mapped port as an
integer with no error when the mapping is available, and `0` together with
the framework's error exactly when it is not. -/
theorem servicePort_resolution (c : Container) :
    aerospikeServicePort = "3000/tcp"
    ∧ (∀ p, c.toFrameworkContainer.MappedPort aerospikeServicePort = .ok p →
        c.ServicePort = (p.Int, none))
    ∧ (∀ e, c.toFrameworkContainer.MappedPort aerospikeServicePort = .error e →
        c.ServicePort = (0, some e)) := by
  refine ⟨rfl, ?_, ?_⟩
  · intro p h
    simp [Container.ServicePort, h]
  · intro e h
    simp [Container.ServicePort, h]

/-- Witness for C7: a handle with an available mapping yields the port, a
handle without one yields zero and the error. -/
theorem servicePort_resolution_witness :
    Container.ServicePort
        { toFrameworkContainer := { MappedPort := fun _ => .ok { value := 54321 } } }
      = (54321, none)
    ∧ Container.ServicePort
        { toFrameworkContainer :=
            { MappedPort := fun _ => .error "container not running" } }
      = (0, some "container not running") :=
  ⟨(servicePort_resolution _).2.1 { value := 54321 } rfl,
    (servicePort_resolution _).2.2 "container not running" rfl⟩

/-- Claim C10: `WithNamespace` and `WithLogLevel` modify only their own
environment key, leaving every other environment entry and every
non-environment field of the request (image, exposed ports, wait strategy,
lifecycle hooks, started flag) unchanged; `WithTTLSupport` only appends one
record to the lifecycle-hook list, leaving the existing hooks and all other
fields (including the environment) unchanged. -/
theorem options_frame_conditions (req : GenericContainerRequest)
    (s lvl ns : String) :
    (∃ r2, WithNamespace s req = .ok r2
      ∧ (∀ k, k ≠ "NAMESPACE" → r2.envGet k = req.envGet k)
      ∧ r2.toContainerRequest.Image = req.toContainerRequest.Image
      ∧ r2.toContainerRequest.ExposedPorts = req.toContainerRequest.ExposedPorts
      ∧ r2.toContainerRequest.WaitingFor = req.toContainerRequest.WaitingFor
      ∧ r2.toContainerRequest.LifecycleHooks = req.toContainerRequest.LifecycleHooks
      ∧ r2.Started = req.Started)
    ∧ (∃ r2, WithLogLevel lvl req = .ok r2
      ∧ (∀ k, k ≠ "AEROSPIKE_LOG_LEVEL" → r2.envGet k = req.envGet k)
      ∧ r2.toContainerRequest.Image = req.toContainerRequest.Image
      ∧ r2.toContainerRequest.ExposedPorts = req.toContainerRequest.ExposedPorts
      ∧ r2.toContainerRequest.WaitingFor = req.toContainerRequest.WaitingFor
      ∧ r2.toContainerRequest.LifecycleHooks = req.toContainerRequest.LifecycleHooks
      ∧ r2.Started = req.Started)
    ∧ (∃ r2 h, WithTTLSupport ns req = .ok r2
      ∧ r2.toContainerRequest.LifecycleHooks =
          req.toContainerRequest.LifecycleHooks ++ [h]
      ∧ r2.toContainerRequest.Env = req.toContainerRequest.Env
      ∧ r2.toContainerRequest.Image = req.toContainerRequest.Image
      ∧ r2.toContainerRequest.ExposedPorts = req.toContainerRequest.ExposedPorts
      ∧ r2.toContainerRequest.WaitingFor = req.toContainerRequest.WaitingFor
      ∧ r2.Started = req.Started) := by
  refine ⟨⟨_, rfl, ?_, rfl, rfl, rfl, rfl, rfl⟩,
    ⟨_, rfl, ?_, rfl, rfl, rfl, rfl, rfl⟩,
    ⟨_, _, rfl, rfl, rfl, rfl, rfl, rfl, rfl⟩⟩
  · intro k hk
    cases hE : req.toContainerRequest.Env <;>
      simp [WithNamespace, GenericContainerRequest.envGet, hE,
        EnvMap.get_set_other _ _ _ _ hk, EnvMap.get, Ne.symm hk]
  · intro k hk
    cases hE : req.toContainerRequest.Env <;>
      simp [WithLogLevel, GenericContainerRequest.envGet, hE,
        EnvMap.get_set_other _ _ _ _ hk, EnvMap.get, Ne.symm hk]

/-- Witness for C10 at concrete inputs: the log-level key and all
non-environment fields survive a namespace write, and a time-to-live write
touches only the hook list. -/
theorem options_frame_conditions_witness :
    (∃ r2, WithNamespace "ns1" GenericContainerRequest.zero = .ok r2
      ∧ r2.envGet "AEROSPIKE_LOG_LEVEL" =
          GenericContainerRequest.zero.envGet "AEROSPIKE_LOG_LEVEL"
      ∧ r2.Started = GenericContainerRequest.zero.Started)
    ∧ (∃ r2 h, WithTTLSupport "" GenericContainerRequest.zero = .ok r2
      ∧ r2.toContainerRequest.LifecycleHooks =
          GenericContainerRequest.zero.toContainerRequest.LifecycleHooks ++ [h]
      ∧ r2.toContainerRequest.Env =
          GenericContainerRequest.zero.toContainerRequest.Env) := by
  obtain ⟨⟨r2, h1, h2, h3, h4, h5, h6, h7⟩, -,
      ⟨r3, hook, g1, g2, g3, g4, g5, g6, g7⟩⟩ :=
    options_frame_conditions GenericContainerRequest.zero "ns1" "lvl" ""
  exact ⟨⟨r2, h1, h2 "AEROSPIKE_LOG_LEVEL" (by decide), h7⟩,
    ⟨r3, hook, g1, g2, g3⟩⟩
